import Mathlib

/-!
Shallow embedding of the asynchronous job orchestration layer of the
Belaynish Telegram bot (`src/index.js`): the Replicate polling loop
(`pollReplicatePrediction`), the throttled progress notifier returned by
`createReplicateProgressEditorFactory`, and the provider fallback chains
of the `/ai` command handler (chat and media branches).

JavaScript numbers are modelled exactly: the percent values the
notifier stores are integers (results of `Math.round` or `parseInt`),
rationals appear at the `parseFloat`/scaling boundary, and an explicit
`nan` value covers the one place `NaN` can arise (`parseFloat` applied
to a digits-and-dots token without a digit).  Times are naturals in
milliseconds.  Remote calls and message sends are modelled by explicit
outcome values supplied per tick.
-/

namespace Eyobbot

/-- A JavaScript number holding an extracted percent value.  Every
value the notifier stores or compares here is the result of
`Math.round` or `parseInt`, hence an integer - or `NaN`, which can only
arise from `parseFloat` applied to a digits-and-dots token without a
digit. -/
inductive JSNum
  | num (n : ℤ)
  | nan
deriving DecidableEq

/-- JavaScript `Math.round`: round half toward positive infinity. -/
def jsRound (q : ℚ) : ℤ := ⌊q + 1 / 2⌋

/-- Subtraction with `NaN` propagation (`percent - lastPercent`). -/
def JSNum.sub : JSNum → JSNum → JSNum
  | JSNum.num a, JSNum.num b => JSNum.num (a - b)
  | _, _ => JSNum.nan

/-- JavaScript `x >= c`: false when `x` is `NaN`. -/
def JSNum.geJS : JSNum → ℤ → Bool
  | JSNum.num a, c => decide (c ≤ a)
  | JSNum.nan, _ => false

/-- `Math.min(100, Math.max(0, x))`; `NaN` passes through both. -/
def JSNum.clamp100 : JSNum → JSNum
  | JSNum.num n => JSNum.num (min 100 (max 0 n))
  | JSNum.nan => JSNum.nan

/-- The intermediate value produced by `parseFloat`: an exact rational
(JS doubles on these token shapes are modelled exactly), or `NaN`. -/
inductive JSVal
  | val (q : ℚ)
  | nan
deriving DecidableEq

/-- JavaScript `p <= 1`: false when `p` is `NaN`. -/
def JSVal.le1 : JSVal → Bool
  | JSVal.val q => decide (q ≤ 1)
  | JSVal.nan => false

/-- `p = Math.round(p * 100)` - the value stays a JS number, now
integral. -/
def JSVal.roundMul100 : JSVal → JSVal
  | JSVal.val q => JSVal.val ((jsRound (q * 100) : ℤ) : ℚ)
  | JSVal.nan => JSVal.nan

/-- `Math.round(p)`, landing in the integral percent world. -/
def JSVal.roundJS : JSVal → JSNum
  | JSVal.val q => JSNum.num (jsRound q)
  | JSVal.nan => JSNum.nan

/-- A Replicate prediction status payload, restricted to the fields the
core reads: `status`, a numeric `progress`, a numeric
`metrics.progress`, and an array of log lines.  `none` stands for an
absent field or one of the wrong runtime type. -/
structure StatusPayload where
  status : String
  progress : Option ℚ
  metricsProgress : Option ℚ
  logs : Option (List String)
deriving DecidableEq

/-- ASCII digit test (regex `\d`). -/
def jsIsDigit (c : Char) : Bool := decide ('0' ≤ c) && decide (c ≤ '9')

/-- Whitespace test (regex `\s`, restricted to the ASCII whitespace that
can occur in Replicate log lines). -/
def jsIsSpace (c : Char) : Bool := c = ' ' || c = '\t' || c = '\n' || c = '\r'

/-- Numeric value of a digit list (`parseInt(s, 10)` on a digit token). -/
def digitsVal (ds : List Char) : ℕ :=
  ds.foldl (fun a c => a * 10 + (c.toNat - '0'.toNat)) 0

/-- After the digits of `/(\d{1,3})\s?%/`: an optional single whitespace
character, then a literal percent sign. -/
def pctTail : List Char → Bool
  | '%' :: _ => true
  | c :: '%' :: _ => jsIsSpace c
  | _ => false

/-- Try to match `/(\d{1,3})\s?%/` anchored at the start of `cs`,
with the greedy-then-backtrack behaviour of the JavaScript engine
(three digits first, then two, then one). -/
def pctMatchAt (cs : List Char) : Option ℕ :=
  let ds := (cs.takeWhile jsIsDigit).take 3
  let tryLen := fun (len : ℕ) =>
    if decide (1 ≤ len) && decide (len ≤ ds.length) && pctTail (cs.drop len) then
      some (digitsVal (ds.take len))
    else none
  (tryLen 3).orElse fun _ => (tryLen 2).orElse fun _ => tryLen 1

/-- First match of `/(\d{1,3})\s?%/` in the string, scanning start
positions left to right as `String.prototype.match` does. -/
def pctMatch : List Char → Option ℕ
  | [] => none
  | c :: cs =>
    match pctMatchAt (c :: cs) with
    | some v => some v
    | none => pctMatch cs

/-- Case-insensitive literal match (for the `/i` flag); returns the rest
of the input on success.  The literal is given in lowercase. -/
def matchLitCI : List Char → List Char → Option (List Char)
  | [], rest => some rest
  | _ :: _, [] => none
  | l :: ls, c :: cs => if c.toLower = l then matchLitCI ls cs else none

/-- Try to match `/progress[:=]\s*([0-9.]+)/i` anchored at the start of
`cs`; returns the captured digits-and-dots token. -/
def progressTokenAt (cs : List Char) : Option (List Char) :=
  match matchLitCI ['p', 'r', 'o', 'g', 'r', 'e', 's', 's'] cs with
  | none => none
  | some r1 =>
    match r1 with
    | [] => none
    | c :: r2 =>
      if c = ':' || c = '=' then
        let r3 := r2.dropWhile jsIsSpace
        let ds := r3.takeWhile fun c => jsIsDigit c || c = '.'
        if ds.isEmpty then none else some ds
      else none

/-- First match of `/progress[:=]\s*([0-9.]+)/i` in the string. -/
def progressTokenMatch : List Char → Option (List Char)
  | [] => none
  | c :: cs =>
    match progressTokenAt (c :: cs) with
    | some v => some v
    | none => progressTokenMatch cs

/-- JavaScript `parseFloat` on a token drawn from `[0-9.]+`: integer
part, then at most one dot and a fractional part; a token without any
digit before or after the first dot gives `NaN` (e.g. `"."`). -/
def jsParseFloat (cs : List Char) : JSVal :=
  let intPart := cs.takeWhile jsIsDigit
  let rest := cs.drop intPart.length
  let fracPart :=
    match rest with
    | '.' :: r => r.takeWhile jsIsDigit
    | _ => []
  if intPart.isEmpty && fracPart.isEmpty then JSVal.nan
  else JSVal.val ((digitsVal intPart : ℚ) + (digitsVal fracPart : ℚ) / (10 ^ fracPart.length))

/-- Percent extraction of `onProgress` (src/index.js lines 233-252), in
the code's priority order: direct numeric `progress` field scaled by
100 and rounded; then `metrics.progress` the same way; then a
`"NN%"` token in the most recent log line, clamped to `[0, 100]`; then
a `progress[:=]<float>` token, values `<= 1` first scaled by 100, the
result rounded and clamped; otherwise unknown (`none`). -/
def extractPercent (res : StatusPayload) : Option JSNum :=
  match res.progress with
  | some q => some (JSNum.num (jsRound (q * 100)))
  | none =>
    match res.metricsProgress with
    | some q => some (JSNum.num (jsRound (q * 100)))
    | none =>
      match res.logs with
      | none => none
      | some logs =>
        let lastLog := (logs.getLast?).getD ""
        match pctMatch lastLog.toList with
        | some n => some (JSNum.num (min 100 (max 0 (n : ℤ))))
        | none =>
          match progressTokenMatch lastLog.toList with
          | none => none
          | some ds =>
            let p := jsParseFloat ds
            let p1 := if p.le1 then p.roundMul100 else p
            some p1.roundJS.clamp100

/-! ## The throttled progress notifier

`createReplicateProgressEditorFactory` (src/index.js lines 220-282)
returns an `onProgress` closure over three mutable variables:
`lastPercent` (initially `-1`), `lastSentTime` (initially `0`) and
`progressMsg` (initially `null`).  One call of that closure is modelled
by `onProgressTick`; the outcomes of the Telegram sends it may attempt
are supplied in a `SendEnv`. -/

/-- The `MIN_DELTA` constant of the factory. -/
def MIN_DELTA : ℤ := 5

/-- The `MIN_INTERVAL_MS` constant of the factory. -/
def MIN_INTERVAL_MS : ℕ := 15000

/-- The closure state of one notifier instance. -/
structure NotifierState where
  lastPercent : JSNum
  lastSentTime : ℕ
  progressMsg : Option ℕ
deriving DecidableEq

/-- Initial closure state (`lastPercent = -1`, `lastSentTime = 0`,
`progressMsg = null`). -/
def NotifierState.init : NotifierState := ⟨JSNum.num (-1), 0, none⟩

deriving instance DecidableEq for Except

/-- External outcomes of one notifier tick: the result of the initial
`ctx.reply` (message id, or a throw), whether `editMessageText`
succeeds, whether the fallback `ctx.reply` succeeds, and whether
reading the payload itself throws (a malformed payload). -/
structure SendEnv where
  replyResult : Except Unit ℕ
  editOk : Bool
  fallbackOk : Bool
  malformed : Bool
deriving DecidableEq

/-- A visible progress update that actually reached the requester,
tagged with the percent it displayed (`none` renders as
`processing...`). -/
inductive Emission
  | newMsg (id : ℕ) (pct : Option JSNum)
  | edited (id : ℕ) (pct : Option JSNum)
  | fallbackMsg (pct : Option JSNum)
deriving DecidableEq

/-- The delta half of `shouldUpdate`: `typeof percent === 'number' &&
percent - lastPercent >= MIN_DELTA`. -/
def knownDeltaOk (pc : Option JSNum) (last : JSNum) : Bool :=
  match pc with
  | some p => (p.sub last).geJS MIN_DELTA
  | none => false

/-- The emission decision of one tick. -/
def shouldEmit (pc : Option JSNum) (s : NotifierState) (now : ℕ) : Bool :=
  knownDeltaOk pc s.lastPercent || decide (MIN_INTERVAL_MS ≤ now - s.lastSentTime)

/-- The closing `if (typeof percent === 'number') lastPercent =
percent` - reached only when no send threw. -/
def recordPct (pc : Option JSNum) (st : NotifierState) : NotifierState :=
  match pc with
  | some p => { st with lastPercent := p }
  | none => st

/-- The send/edit stage of a tick that decided to update.
`lastSentTime` was already set to `now` before any send is attempted;
a throwing send is caught by the outer `try` of `onProgress`, so the
mutations before the throw survive and `lastPercent` is not updated. -/
def emitStep (env : SendEnv) (s : NotifierState) (pc : Option JSNum) (now : ℕ) :
    NotifierState × List Emission :=
  let s1 : NotifierState := { s with lastSentTime := now }
  match s.progressMsg with
  | none =>
    match env.replyResult with
    | Except.error _ => (s1, [])
    | Except.ok mid =>
      (recordPct pc { s1 with progressMsg := some mid }, [Emission.newMsg mid pc])
  | some mid =>
    if env.editOk then (recordPct pc s1, [Emission.edited mid pc])
    else if env.fallbackOk then (recordPct pc s1, [Emission.fallbackMsg pc])
    else (s1, [])

/-- One call of the `onProgress` closure (src/index.js lines 230-281):
extract a percent, decide whether to update, send or edit, and record
the percent.  Its whole body runs inside `try { ... } catch` - a
malformed payload or a failed fallback send is swallowed. -/
def onProgressTick (env : SendEnv) (s : NotifierState) (res : StatusPayload) (now : ℕ) :
    NotifierState × List Emission :=
  if env.malformed then (s, [])
  else if shouldEmit (extractPercent res) s now then
    emitStep env s (extractPercent res) now
  else (s, [])

/-- The known percent values among the updates actually emitted. -/
def emittedPercents (ems : List Emission) : List ℤ :=
  ems.filterMap fun e =>
    match e with
    | Emission.newMsg _ (some (JSNum.num n)) => some n
    | Emission.edited _ (some (JSNum.num n)) => some n
    | Emission.fallbackMsg (some (JSNum.num n)) => some n
    | _ => none

/-! ## The polling loop

`pollReplicatePrediction` (src/index.js lines 202-215) loops: check the
deadline against the elapsed time since the start of polling, fetch the
prediction (`replicateGet` - an axios failure here is NOT caught and
propagates out of the loop), fire the progress callback inside a
`try`/`catch` that ignores its failure, then return on `succeeded`,
throw on `failed`, and otherwise sleep and repeat. -/

/-- The default `REPLICATE_POLL_INTERVAL_MS`. -/
def REPLICATE_POLL_INTERVAL_MS : ℕ := 3000

/-- The default `REPLICATE_POLL_TIMEOUT_SEC`. -/
def REPLICATE_POLL_TIMEOUT_SEC : ℕ := 600

/-- How a polling run can end unsuccessfully: the deadline throw, the
explicit `failed` status throw, or an uncaught `replicateGet`
network/transport failure. -/
inductive PollError
  | timedOut
  | jobFailed (res : StatusPayload)
  | fetchError
deriving DecidableEq

/-- Whether a poll error is one of the two endings the specification
allows for an unsuccessful job: deadline expiry or explicit provider
failure. -/
def PollError.isExplicitEnd : PollError → Bool
  | PollError.timedOut => true
  | PollError.jobFailed _ => true
  | PollError.fetchError => false

/-- One loop iteration of a polling run: the elapsed milliseconds since
`start` observed at the top of the loop, the wall-clock `Date.now()`
seen inside the progress callback, the outcome of `replicateGet`, and
the send outcomes for the notifier. -/
structure RunTick where
  elapsedMs : ℕ
  now : ℕ
  fetch : Except Unit StatusPayload
  env : SendEnv
deriving DecidableEq

/-- Outcome of running the poll loop over a finite trace of iterations:
the final notifier state, every update emitted, and the terminal result
(`none` when the trace ended with the loop still running). -/
structure RunResult where
  state : NotifierState
  emitted : List Emission
  result : Option (Except PollError StatusPayload)
deriving DecidableEq

/-- The loop of `pollReplicatePrediction` with the notifier as its
progress callback, driven by a trace of iterations.  `to` is the deadline in
seconds; the code compares `elapsed > to` with `elapsed` in (float)
seconds, which on millisecond inputs is exactly `to * 1000 <
elapsedMs`. -/
def runPoll (toSec : ℕ) (s : NotifierState) : List RunTick → RunResult
  | [] => ⟨s, [], none⟩
  | t :: ts =>
    if toSec * 1000 < t.elapsedMs then ⟨s, [], some (Except.error PollError.timedOut)⟩
    else
      match t.fetch with
      | Except.error _ => ⟨s, [], some (Except.error PollError.fetchError)⟩
      | Except.ok res =>
        let pr := onProgressTick t.env s res t.now
        if res.status = "succeeded" then ⟨pr.1, pr.2, some (Except.ok res)⟩
        else if res.status = "failed" then
          ⟨pr.1, pr.2, some (Except.error (PollError.jobFailed res))⟩
        else
          let r := runPoll toSec pr.1 ts
          ⟨r.state, pr.2 ++ r.emitted, r.result⟩

/-- A running (non-terminal) payload with no readable progress. -/
def runningPayload : StatusPayload := ⟨"processing", none, none, none⟩

/-- Send environment in which every Telegram call succeeds (initial
reply returns message id 1). -/
def envAllOk : SendEnv := ⟨Except.ok 1, true, true, false⟩

/-! ## The chat fallback chain

The `chat` branch of the `/ai` handler (src/index.js lines 424-495)
tries HF Space, then the HF inference API, then Replicate, each inside
its own `try`/`catch` that logs and falls through; when no provider
produced an answer it falls back to a combined Wikipedia + DuckDuckGo
text.  Each provider attempt is abstracted to `none` (not configured -
the guarding environment variables are absent, so the branch is not
entered), `Except.ok a` (an answer) or `Except.error e` (the attempt
threw and was caught).  `wikiSummary` and `duckDuck` catch internally
and always return a string. -/

/-- The candidates of the chat chain, in configured order. -/
inductive ChatProvider
  | hfSpace
  | hfApi
  | replicate
  | wikiDuck
deriving DecidableEq

/-- Configuration and outcomes of one chat request. -/
structure ChatProviders where
  hfSpace : Option (Except String String)
  hfApi : Option (Except String String)
  replicate : Option (Except String String)
  wiki : String
  duck : String
deriving DecidableEq

/-- The chat branch: the final answer text (always produced - every
provider failure is caught) together with the list of candidates that
were actually attempted, in order. -/
def chatRun (p : ChatProviders) : String × List ChatProvider :=
  let step1 : Option String × List ChatProvider :=
    match p.hfSpace with
    | none => (none, [])
    | some (Except.ok a) => (some a, [ChatProvider.hfSpace])
    | some (Except.error _) => (none, [ChatProvider.hfSpace])
  match step1 with
  | (some a, tr) => (a, tr)
  | (none, tr) =>
    let step2 : Option String × List ChatProvider :=
      match p.hfApi with
      | none => (none, tr)
      | some (Except.ok a) => (some a, tr ++ [ChatProvider.hfApi])
      | some (Except.error _) => (none, tr ++ [ChatProvider.hfApi])
    match step2 with
    | (some a, tr2) => (a, tr2)
    | (none, tr2) =>
      let step3 : Option String × List ChatProvider :=
        match p.replicate with
        | none => (none, tr2)
        | some (Except.ok a) => (some a, tr2 ++ [ChatProvider.replicate])
        | some (Except.error _) => (none, tr2 ++ [ChatProvider.replicate])
      match step3 with
      | (some a, tr3) => (a, tr3)
      | (none, tr3) =>
        (p.wiki ++ "\n\nDuck summary:\n" ++ p.duck, tr3 ++ [ChatProvider.wikiDuck])

/-! ## The media fallback branches

The `media` branch of the `/ai` handler (src/index.js lines 551-635):
a Runway branch for the Runway modes when `RUNWAY_API_KEY` is set, a
Replicate branch for the Replicate modes when `REPLICATE_API_KEY` is
set - each of which, once entered, always returns, including from its
`catch` - and a Stability -> Pixabay tail for `t2i`, ending in a fixed
generic message.  Texts are modelled without the global `Belaynish`
prefix that `withPrefix` adds to every outgoing reply; captions carry
the raw payload. -/

/-- The media sub-modes of `/ai media`. -/
inductive MediaSub
  | t2i | t2v | i2v | v2v | upscale | act
  | flux | fixface | caption | burncaption | recon3d
deriving DecidableEq

/-- The `runwayModes` array (src/index.js line 556). -/
def runwayModes : List MediaSub :=
  [MediaSub.t2i, MediaSub.t2v, MediaSub.i2v, MediaSub.v2v, MediaSub.upscale, MediaSub.act]

/-- The `repModes` array (src/index.js line 557). -/
def repModes : List MediaSub :=
  [MediaSub.flux, MediaSub.fixface, MediaSub.caption, MediaSub.burncaption, MediaSub.recon3d]

/-- Outcome of the Runway attempt: `safeFirst(res.output) || res.output`
(collapsed to the first output when present), or a throw from
`callRunway` (including a missing endpoint variable). -/
inductive RunwayOutcome
  | ok (out : Option String)
  | err (e : String)
deriving DecidableEq

/-- Outcome of the Replicate media attempt: a polled prediction with
its first output, a synchronous `created.output[0]`, a created job with
neither id nor output, or a throw from create/poll. -/
inductive RepMediaOutcome
  | polled (out : Option String)
  | sync (out : String)
  | started
  | err (e : String)
deriving DecidableEq

/-- Configuration and outcomes available to one media request. -/
structure MediaEnv where
  runwayKey : Bool
  replicateKey : Bool
  stabilityKey : Bool
  pixabayKey : Bool
  runway : RunwayOutcome
  replicateModelSet : Bool
  replicate : RepMediaOutcome
  stability : Except String String
  pixabay : Except String (List String)
deriving DecidableEq

/-- A reply sent back by the media branch. -/
inductive MediaReply
  | photo (out caption : String)
  | video (out caption : String)
  | document (out : String)
  | text (s : String)
deriving DecidableEq

/-- The fixed message ending the media branch when nothing produced
output. -/
def mediaFallbackText : String :=
  "No provider configured for that media mode or provider returned no output."

/-- Reply selection of the Replicate media branch by sub-mode
(src/index.js lines 600-609, identical for the polled and the
synchronous case). -/
def repMediaReply (sub : MediaSub) (payload out : String) : MediaReply :=
  if sub = MediaSub.flux || sub = MediaSub.fixface then MediaReply.photo out payload
  else if sub = MediaSub.recon3d then MediaReply.document out
  else if sub = MediaSub.caption then MediaReply.text out
  else MediaReply.video out payload

/-- The Stability -> Pixabay tail reached when neither the Runway nor
the Replicate branch applies (src/index.js lines 618-634): only for
`t2i`; a Stability failure is logged and falls through to Pixabay; a
Pixabay failure or an empty hit list falls through to the generic
message. -/
def mediaTail (sub : MediaSub) (env : MediaEnv) : MediaReply :=
  if sub = MediaSub.t2i then
    match (if env.stabilityKey then some env.stability else none) with
    | some (Except.ok buf) => MediaReply.photo buf ""
    | _ =>
      match (if env.pixabayKey then some env.pixabay else none) with
      | some (Except.ok (h :: _)) => MediaReply.photo h ""
      | _ => MediaReply.text mediaFallbackText
  else MediaReply.text mediaFallbackText

/-- The whole media branch.  Once the Runway branch is entered (a
Runway mode and `RUNWAY_API_KEY` present), every path inside it
returns, including the `catch`; likewise for the Replicate branch. -/
def mediaHandler (sub : MediaSub) (payload : String) (env : MediaEnv) : MediaReply :=
  if decide (sub ∈ runwayModes) && env.runwayKey then
    match env.runway with
    | RunwayOutcome.err e => MediaReply.text ("Runway media error: " ++ e)
    | RunwayOutcome.ok none => MediaReply.text "Runway returned no output yet."
    | RunwayOutcome.ok (some out) =>
      if sub = MediaSub.t2i then MediaReply.photo out payload else MediaReply.video out payload
  else if decide (sub ∈ repModes) && env.replicateKey then
    if !env.replicateModelSet then MediaReply.text "Replicate model not set for this mode."
    else
      match env.replicate with
      | RepMediaOutcome.err e => MediaReply.text ("Replicate media error: " ++ e)
      | RepMediaOutcome.polled none => MediaReply.text "Replicate finished but produced no output."
      | RepMediaOutcome.polled (some out) => repMediaReply sub payload out
      | RepMediaOutcome.sync out => repMediaReply sub payload out
      | RepMediaOutcome.started => MediaReply.text "Replicate started job; check dashboard."
  else mediaTail sub env

/-! ## Auxiliary definitions for the theorems -/

/-- A tick that stays within the deadline and fetches a non-terminal
status. -/
def isRunningTick (toSec : ℕ) (t : RunTick) : Bool :=
  decide (t.elapsedMs ≤ toSec * 1000) &&
    (match t.fetch with
     | Except.ok res => decide (res.status ≠ "succeeded") && decide (res.status ≠ "failed")
     | Except.error _ => false)

/-- A running in-deadline tick whose payload yields no readable
percent. -/
def isQuietTick (toSec : ℕ) (t : RunTick) : Bool :=
  decide (t.elapsedMs ≤ toSec * 1000) &&
    (match t.fetch with
     | Except.ok res =>
       decide (res.status ≠ "succeeded") && decide (res.status ≠ "failed") &&
         decide (extractPercent res = none)
     | Except.error _ => false)

/-- Replace the send environments of a prefix of a trace, leaving the
observed times and fetch outcomes unchanged.  This expresses an
arbitrary change in the behaviour of the progress callback and of the
Telegram transport. -/
def reEnv : List RunTick → List SendEnv → List RunTick
  | [], _ => []
  | ts, [] => ts
  | t :: ts, e :: es => { t with env := e } :: reEnv ts es

/-- Upper bound on the number of emissions a notifier starting with
`lastSentTime = L` can produce from ticks whose `now` values lie in
`[a, a + T]`: emissions are at least 15000 ms apart. -/
def emitBound (a T L : ℕ) : ℕ :=
  if L + 15000 ≤ a then T / 15000 + 1
  else if L + 15000 ≤ a + T then (a + T - (L + 15000)) / 15000 + 1
  else 0

/-- Iteration `i` of a run that follows the code's fixed 3-second poll
cadence, starting at wall-clock time `a`, with every fetch returning a
running payload without progress information and every send
succeeding. -/
def canonicalTick (a i : ℕ) : RunTick :=
  ⟨REPLICATE_POLL_INTERVAL_MS * i, a + REPLICATE_POLL_INTERVAL_MS * i,
    Except.ok runningPayload, envAllOk⟩

/-- The first `n` iterations of the canonical cadence. -/
def canonicalTicks (a n : ℕ) : List RunTick := (List.range n).map (canonicalTick a)

/-! ## Helper lemmas -/

/-- Rounding an integral JS value is the identity. -/
theorem jsRound_intCast (n : ℤ) : jsRound (n : ℚ) = n := by
  unfold jsRound
  rw [add_comm, Int.floor_add_int]
  norm_num

theorem recordPct_lastSentTime (pc : Option JSNum) (st : NotifierState) :
    (recordPct pc st).lastSentTime = st.lastSentTime := by cases pc <;> rfl

theorem recordPct_progressMsg (pc : Option JSNum) (st : NotifierState) :
    (recordPct pc st).progressMsg = st.progressMsg := by cases pc <;> rfl

theorem emitStep_lastSentTime (env : SendEnv) (s : NotifierState) (pc : Option JSNum) (now : ℕ) :
    (emitStep env s pc now).1.lastSentTime = now := by
  unfold emitStep
  rcases s with ⟨lp, lst, pm⟩
  cases pm
  · cases env.replyResult <;> simp [recordPct_lastSentTime]
  · by_cases he : env.editOk <;> by_cases hf : env.fallbackOk <;>
      simp [he, hf, recordPct_lastSentTime]

theorem emitStep_length_le_one (env : SendEnv) (s : NotifierState) (pc : Option JSNum) (now : ℕ) :
    (emitStep env s pc now).2.length ≤ 1 := by
  unfold emitStep
  rcases s with ⟨lp, lst, pm⟩
  cases pm
  · cases env.replyResult <;> simp
  · by_cases he : env.editOk <;> by_cases hf : env.fallbackOk <;> simp [he, hf]

theorem onProgressTick_skip (env : SendEnv) (s : NotifierState) (res : StatusPayload) (now : ℕ)
    (hm : env.malformed = false) (h : shouldEmit (extractPercent res) s now = false) :
    onProgressTick env s res now = (s, []) := by
  simp [onProgressTick, hm, h]

theorem onProgressTick_emit (env : SendEnv) (s : NotifierState) (res : StatusPayload) (now : ℕ)
    (hm : env.malformed = false) (h : shouldEmit (extractPercent res) s now = true) :
    onProgressTick env s res now = emitStep env s (extractPercent res) now := by
  simp [onProgressTick, hm, h]

/-- On a tick without a readable percent, either nothing at all happens,
or the time trigger held, `lastSentTime` advanced to `now`, and at most
one update was emitted - whatever the send outcomes. -/
theorem tick_cases_unknown (env : SendEnv) (s : NotifierState) (res : StatusPayload) (now : ℕ)
    (h : extractPercent res = none) :
    onProgressTick env s res now = (s, []) ∨
      (15000 ≤ now - s.lastSentTime ∧
        (onProgressTick env s res now).1.lastSentTime = now ∧
        (onProgressTick env s res now).2.length ≤ 1) := by
  by_cases hm : env.malformed
  · left
    simp [onProgressTick, hm]
  · by_cases htime : 15000 ≤ now - s.lastSentTime
    · right
      have hs : shouldEmit (extractPercent res) s now = true := by
        simp [shouldEmit, h, knownDeltaOk, MIN_INTERVAL_MS, htime]
      rw [onProgressTick_emit env s res now (by simp [hm]) hs]
      exact ⟨htime, emitStep_lastSentTime .., emitStep_length_le_one ..⟩
    · left
      have hs : shouldEmit (extractPercent res) s now = false := by
        simp [shouldEmit, h, knownDeltaOk, MIN_INTERVAL_MS, htime]
      exact onProgressTick_skip env s res now (by simp [hm]) hs

/-! ## Claim C1 -/

/-- Claim C1 (counterexample): the claim says a transient network error
in a status fetch is a no-op tick and the job ends unsuccessfully only
on an explicit provider failure status or deadline expiry.  In the
code, `replicateGet` is not wrapped in any `try`, so on the very first
iteration, well inside the deadline, a fetch failure ends the run - and
it ends it with a fetch error, which is neither of the two endings the
claim allows. -/
theorem C1_counterexample :
    (runPoll 600 NotifierState.init [⟨0, 0, Except.error (), envAllOk⟩]).result =
        some (Except.error PollError.fetchError) ∧
      PollError.fetchError.isExplicitEnd = false := by
  exact ⟨by decide, by decide⟩

/-- Claim C1 (amended): a `fetchStatus` network/transport error is not
skipped: on any iteration that starts within the deadline, a failing
fetch immediately ends the polling run with that fetch error,
whatever the notifier state and whatever ticks would have followed. -/
theorem C1_fetch_error_fails_poll (toSec : ℕ) (s : NotifierState) (t : RunTick)
    (ts : List RunTick) (hdl : t.elapsedMs ≤ toSec * 1000) (hf : t.fetch = Except.error ()) :
    (runPoll toSec s (t :: ts)).result = some (Except.error PollError.fetchError) := by
  have hlt : ¬ toSec * 1000 < t.elapsedMs := by omega
  simp [runPoll, hlt, hf]

/-- Witness for C1: the amended theorem applied to a concrete
first-iteration fetch failure. -/
theorem C1_witness :
    (runPoll 600 NotifierState.init [⟨0, 5, Except.error (), envAllOk⟩]).result =
      some (Except.error PollError.fetchError) :=
  C1_fetch_error_fails_poll 600 NotifierState.init ⟨0, 5, Except.error (), envAllOk⟩ []
    (by decide) rfl

/-! ## Claim C5 -/

/-- Claim C5: any polling run that reaches an iteration whose elapsed
time (measured from the start of polling - the code takes `start =
Date.now()` once, before the loop) exceeds the deadline ends with the
timeout error, no matter what in-deadline running statuses - with any
progress values - were observed before. -/
theorem C5_deadline_timeout (toSec : ℕ) (s : NotifierState) (pre : List RunTick)
    (t : RunTick) (rest : List RunTick)
    (hpre : ∀ u ∈ pre, isRunningTick toSec u = true)
    (ht : toSec * 1000 < t.elapsedMs) :
    (runPoll toSec s (pre ++ t :: rest)).result = some (Except.error PollError.timedOut) := by
  induction pre generalizing s with
  | nil => simp [runPoll, ht]
  | cons u us ih =>
    have hu : isRunningTick toSec u = true := hpre u (by simp)
    have hus : ∀ v ∈ us, isRunningTick toSec v = true := fun v hv => hpre v (by simp [hv])
    cases hf : u.fetch with
    | error e => simp [isRunningTick, hf] at hu
    | ok res =>
      rw [isRunningTick, hf] at hu
      simp only [Bool.and_eq_true, decide_eq_true_eq] at hu
      have h1 : ¬ toSec * 1000 < u.elapsedMs := by omega
      simp [runPoll, h1, hf, hu.2.1, hu.2.2, ih _ hus]

/-- Witness for C5: a run observing two in-deadline `processing`
payloads with increasing progress still times out at the first
over-deadline iteration. -/
theorem C5_witness :
    (runPoll 600 NotifierState.init
      [⟨0, 16000, Except.ok ⟨"processing", some (3 / 10), none, none⟩, envAllOk⟩,
       ⟨3000, 19000, Except.ok ⟨"processing", some (6 / 10), none, none⟩, envAllOk⟩,
       ⟨600001, 616001, Except.ok runningPayload, envAllOk⟩]).result =
      some (Except.error PollError.timedOut) := by
  refine C5_deadline_timeout 600 NotifierState.init
    [⟨0, 16000, Except.ok ⟨"processing", some (3 / 10), none, none⟩, envAllOk⟩,
     ⟨3000, 19000, Except.ok ⟨"processing", some (6 / 10), none, none⟩, envAllOk⟩]
    ⟨600001, 616001, Except.ok runningPayload, envAllOk⟩ [] ?_ (by decide)
  intro u hu
  simp only [List.mem_cons, List.mem_singleton] at hu
  rcases hu with rfl | rfl | h
  · decide
  · decide
  · cases h

/-! ## Claim C8 -/

/-- Claim C8: the progress callback is invoked inside
`try { onProgress(res) } catch { }` and the notifier swallows its own
failures (malformed payload, failed edit, failed fallback send), so the
terminal outcome of a polling run does not depend on the notifier state
it starts with nor on any of the send/callback outcomes: replacing the
send environments of any prefix of the trace, and the initial notifier
state, leaves the poll result unchanged. -/
theorem reEnv_nil (ts : List RunTick) : reEnv ts [] = ts := by cases ts <;> rfl

theorem C8_notifier_failures_never_abort (toSec : ℕ) (s s' : NotifierState)
    (ticks : List RunTick) (es : List SendEnv) :
    (runPoll toSec s ticks).result = (runPoll toSec s' (reEnv ticks es)).result := by
  induction ticks generalizing s s' es with
  | nil =>
    cases es <;> rfl
  | cons t ts ih =>
    cases es with
    | nil =>
      show (runPoll toSec s (t :: ts)).result = (runPoll toSec s' (t :: ts)).result
      by_cases hlt : toSec * 1000 < t.elapsedMs
      · simp [runPoll, hlt]
      · cases hf : t.fetch with
        | error e => simp [runPoll, hlt, hf]
        | ok res =>
          by_cases h1 : res.status = "succeeded"
          · simp [runPoll, hlt, hf, h1]
          · by_cases h2 : res.status = "failed"
            · simp [runPoll, hlt, hf, h1, h2]
            · simpa [runPoll, hlt, hf, h1, h2, reEnv_nil] using
                ih (onProgressTick t.env s res t.now).1 (onProgressTick t.env s' res t.now).1 []
    | cons e es' =>
      show (runPoll toSec s (t :: ts)).result =
        (runPoll toSec s' ({ t with env := e } :: reEnv ts es')).result
      by_cases hlt : toSec * 1000 < t.elapsedMs
      · simp [runPoll, hlt]
      · cases hf : t.fetch with
        | error he => simp [runPoll, hlt, hf]
        | ok res =>
          by_cases h1 : res.status = "succeeded"
          · simp [runPoll, hlt, hf, h1]
          · by_cases h2 : res.status = "failed"
            · simp [runPoll, hlt, hf, h1, h2]
            · simpa [runPoll, hlt, hf, h1, h2] using
                ih (onProgressTick t.env s res t.now).1 (onProgressTick e s' res t.now).1 es'

/-! ## Claim C2 -/

/-- Claim C2 (counterexample): the claim says that when every candidate
fails, `execute` returns an aggregate `AllProvidersFailed` outcome
carrying the capability and the last underlying error.  In the chat
branch, two runs in which all three providers fail with entirely
different errors produce the exact same reply - the wiki + duck
fallback text - so the outcome cannot carry the last error (and is an
ordinary answer, not an aggregate failure value). -/
theorem C2_counterexample :
    chatRun ⟨some (Except.error "boom1"), some (Except.error "boom2"),
        some (Except.error "boom3"), "w", "d"⟩ =
      chatRun ⟨some (Except.error "zap1"), some (Except.error "zap2"),
        some (Except.error "zap3"), "w", "d"⟩ ∧
      ("boom3" : String) ≠ "zap3" := by
  exact ⟨by decide, by decide⟩

/-- Claim C2 (amended): when every configured candidate of the chat
chain fails, the handler replies with the Wikipedia + DuckDuckGo
fallback text, which is independent of the providers' errors; when the
`t2i` media tail exhausts Stability and Pixabay, the handler replies
with the fixed generic message.  In both branches every provider
failure is caught (the functions are total), so no unhandled error
reaches the caller. -/
theorem C2_all_fail_fallback_reply :
    (∀ (e1 e2 e3 w d : String),
      (chatRun ⟨some (Except.error e1), some (Except.error e2),
          some (Except.error e3), w, d⟩).1 =
        w ++ "\n\nDuck summary:\n" ++ d) ∧
    (∀ (pl es : String) (px : String) (rw : RunwayOutcome) (rms : Bool)
        (rep : RepMediaOutcome),
      mediaHandler MediaSub.t2i pl
          ⟨false, false, true, true, rw, rms, rep, Except.error es, Except.error px⟩ =
        MediaReply.text mediaFallbackText) := by
  constructor
  · intro e1 e2 e3 w d
    rfl
  · intro pl es px rw rms rep
    rfl

/-! ## Claim C7 -/

/-- Claim C7 (counterexample): the claim says the fallback chain treats
provider failures uniformly by logging and continuing to the next
candidate.  In the media branch, with Runway configured but failing and
Stability configured and able to answer, the handler returns the Runway
error reply - while the very same request with Runway unconfigured
reaches Stability and returns its photo.  So a Runway failure ends the
call instead of continuing the chain. -/
theorem C7_counterexample :
    mediaHandler MediaSub.t2i "cat"
        ⟨true, false, true, false, RunwayOutcome.err "network down", false,
          RepMediaOutcome.started, Except.ok "IMG", Except.error "x"⟩ =
      MediaReply.text "Runway media error: network down" ∧
    mediaHandler MediaSub.t2i "cat"
        ⟨false, false, true, false, RunwayOutcome.err "network down", false,
          RepMediaOutcome.started, Except.ok "IMG", Except.error "x"⟩ =
      MediaReply.photo "IMG" "" := by
  exact ⟨by decide, by decide⟩

/-- Claim C7 (amended): within one call, no candidate is ever attempted
twice (the chat attempt list has no duplicates); in the chat branch a
failing candidate is logged and the chain continues in configured
order, so with HF Space and HF API failing a Replicate success is still
returned; but in the media branch a failure of the Runway candidate
(and likewise of the Replicate candidate) immediately produces an error
reply without attempting any later candidate. -/
theorem C7_failure_handling :
    (∀ p : ChatProviders, (chatRun p).2.Nodup) ∧
    (∀ (e1 e2 a w d : String),
      (chatRun ⟨some (Except.error e1), some (Except.error e2),
          some (Except.ok a), w, d⟩).1 = a) ∧
    (∀ (pl e : String) (rk sk pk : Bool) (rms : Bool) (rep : RepMediaOutcome)
        (st : Except String String) (px : Except String (List String)),
      mediaHandler MediaSub.t2i pl ⟨true, rk, sk, pk, RunwayOutcome.err e, rms, rep, st, px⟩ =
        MediaReply.text ("Runway media error: " ++ e)) := by
  refine ⟨?_, ?_, ?_⟩
  · intro p
    rcases p with ⟨h1, h2, h3, w, d⟩
    rcases h1 with _ | a1 | e1 <;> rcases h2 with _ | a2 | e2 <;>
      rcases h3 with _ | a3 | e3 <;> (simp only [chatRun]; decide)
  · intro e1 e2 a w d
    rfl
  · intro pl e rk sk pk rms rep st px
    rfl

/-! ## More helper lemmas for the notifier claims -/

theorem emitStep_lastPercent_of_none (env : SendEnv) (s : NotifierState) (now : ℕ) :
    (emitStep env s none now).1.lastPercent = s.lastPercent := by
  unfold emitStep
  rcases s with ⟨lp, lst, pm⟩
  cases pm
  · cases env.replyResult <;> simp [recordPct]
  · by_cases he : env.editOk <;> by_cases hf : env.fallbackOk <;> simp [he, hf, recordPct]

theorem emitStep_lastPercent_of_empty (env : SendEnv) (s : NotifierState) (pc : Option JSNum)
    (now : ℕ) (h : (emitStep env s pc now).2 = []) :
    (emitStep env s pc now).1.lastPercent = s.lastPercent := by
  rcases env with ⟨rr, eo, fo, mf⟩
  unfold emitStep at h ⊢
  rcases s with ⟨lp, lst, pm⟩
  cases pm
  · cases rr <;> simp_all
  · cases eo <;> cases fo <;> simp_all [recordPct]

theorem emitStep_records (env : SendEnv) (s : NotifierState) (p : JSNum) (now : ℕ)
    (h : (emitStep env s (some p) now).2 ≠ []) :
    (emitStep env s (some p) now).1.lastPercent = p := by
  rcases env with ⟨rr, eo, fo, mf⟩
  unfold emitStep at h ⊢
  rcases s with ⟨lp, lst, pm⟩
  cases pm
  · cases rr <;> simp_all [recordPct]
  · cases eo <;> cases fo <;> simp_all [recordPct]

theorem emitStep_ok_env_ne_nil (mid : ℕ) (s : NotifierState) (pc : Option JSNum) (now : ℕ) :
    (emitStep ⟨Except.ok mid, true, true, false⟩ s pc now).2 ≠ [] := by
  unfold emitStep
  rcases s with ⟨lp, lst, pm⟩
  cases pm <;> simp

/-- The emission decision against a state holding a numeric
`lastPercent`, as an arithmetic condition. -/
theorem shouldEmit_num_iff (pc : Option JSNum) (l : ℤ) (lst : ℕ) (pm : Option ℕ) (now : ℕ) :
    shouldEmit pc ⟨JSNum.num l, lst, pm⟩ now = true ↔
      ((∃ n : ℤ, pc = some (JSNum.num n) ∧ 5 ≤ n - l) ∨ 15000 ≤ now - lst) := by
  unfold shouldEmit knownDeltaOk MIN_DELTA MIN_INTERVAL_MS
  cases pc with
  | none => simp
  | some p =>
    cases p with
    | num n => simp [JSNum.sub, JSNum.geJS]
    | nan => simp [JSNum.sub, JSNum.geJS]

/-! ## Claim C3 -/

/-- Claim C3 (counterexample): the claim says the known percent values
one notifier instance emits are non-decreasing.  In this run the first
tick emits 50%; the second tick reads 30%, fails the delta trigger but
passes the 15000 ms time trigger, emits 30% and records it - so the
emitted known percents are `[50, 30]`, which is not non-decreasing. -/
theorem C3_counterexample :
    emittedPercents (runPoll 600 NotifierState.init
        [⟨3000, 100000, Except.ok ⟨"processing", none, none, some ["50%"]⟩, envAllOk⟩,
         ⟨6000, 115000, Except.ok ⟨"processing", none, none, some ["30%"]⟩, envAllOk⟩]).emitted =
      [(50 : ℤ), 30] ∧ ¬ ((50 : ℤ) ≤ 30) := by
  exact ⟨by decide, by decide⟩

/-- Claim C3 (amended): a tick whose extracted percent is unknown never
changes `lastPercent`, and a tick that emits nothing never changes it
either; but a tick that does emit with a known percent records exactly
that percent - which a time-triggered emission allows to be lower than
the previous one, so the emitted known percents need not be
non-decreasing. -/
theorem C3_lastPercent_update :
    (∀ (env : SendEnv) (s : NotifierState) (res : StatusPayload) (now : ℕ),
      extractPercent res = none →
        (onProgressTick env s res now).1.lastPercent = s.lastPercent) ∧
    (∀ (env : SendEnv) (s : NotifierState) (res : StatusPayload) (now : ℕ),
      (onProgressTick env s res now).2 = [] →
        (onProgressTick env s res now).1.lastPercent = s.lastPercent) ∧
    (∀ (env : SendEnv) (s : NotifierState) (res : StatusPayload) (now : ℕ) (n : ℤ),
      extractPercent res = some (JSNum.num n) →
        (onProgressTick env s res now).2 ≠ [] →
        (onProgressTick env s res now).1.lastPercent = JSNum.num n) := by
  refine ⟨?_, ?_, ?_⟩
  · intro env s res now hx
    by_cases hm : env.malformed
    · simp [onProgressTick, hm]
    · by_cases hs : shouldEmit (extractPercent res) s now
      · rw [onProgressTick_emit env s res now (Bool.eq_false_iff.mpr hm) hs, hx]
        exact emitStep_lastPercent_of_none env s now
      · rw [onProgressTick_skip env s res now (Bool.eq_false_iff.mpr hm)
          (Bool.eq_false_iff.mpr hs)]
  · intro env s res now hemp
    by_cases hm : env.malformed
    · simp [onProgressTick, hm]
    · by_cases hs : shouldEmit (extractPercent res) s now
      · rw [onProgressTick_emit env s res now (Bool.eq_false_iff.mpr hm) hs] at hemp ⊢
        exact emitStep_lastPercent_of_empty env s _ now hemp
      · rw [onProgressTick_skip env s res now (Bool.eq_false_iff.mpr hm)
          (Bool.eq_false_iff.mpr hs)]
  · intro env s res now n hx hne
    by_cases hm : env.malformed
    · simp [onProgressTick, hm] at hne
    · by_cases hs : shouldEmit (extractPercent res) s now
      · rw [onProgressTick_emit env s res now (Bool.eq_false_iff.mpr hm) hs] at hne ⊢
        rw [hx] at hne ⊢
        exact emitStep_records env s _ now hne
      · rw [onProgressTick_skip env s res now (Bool.eq_false_iff.mpr hm)
          (Bool.eq_false_iff.mpr hs)] at hne
        exact absurd rfl hne

/-- Witness for C3: an unknown-percent tick from the initial state
leaves `lastPercent` untouched. -/
theorem C3_witness :
    (onProgressTick envAllOk NotifierState.init runningPayload 20000).1.lastPercent =
      NotifierState.init.lastPercent :=
  C3_lastPercent_update.1 envAllOk NotifierState.init runningPayload 20000 rfl

/-! ## Claim C4 -/

/-- Claim C4: with the transport succeeding, a tick emits an update iff
the extracted percent is known and at least 5 points above
`lastPercent`, or at least 15000 ms have passed since `lastSentTime` -
the time trigger firing regardless of whether a percent is known; and
concretely, from 10% a jump to 16% inside the interval window emits
immediately, while a jump to 13% does not emit until the time threshold
is reached. -/
theorem C4_emission_iff :
    (∀ (mid : ℕ) (l : ℤ) (lst : ℕ) (pm : Option ℕ) (res : StatusPayload) (now : ℕ),
      (onProgressTick ⟨Except.ok mid, true, true, false⟩ ⟨JSNum.num l, lst, pm⟩ res now).2 ≠ []
        ↔ ((∃ n : ℤ, extractPercent res = some (JSNum.num n) ∧ 5 ≤ n - l) ∨
            15000 ≤ now - lst)) ∧
    (onProgressTick envAllOk ⟨JSNum.num 10, 1000000, some 7⟩
        ⟨"processing", none, none, some ["16%"]⟩ 1005000).2 =
      [Emission.edited 7 (some (JSNum.num 16))] ∧
    (onProgressTick envAllOk ⟨JSNum.num 10, 1000000, some 7⟩
        ⟨"processing", none, none, some ["13%"]⟩ 1005000).2 = [] ∧
    (onProgressTick envAllOk ⟨JSNum.num 10, 1000000, some 7⟩
        ⟨"processing", none, none, some ["13%"]⟩ 1015000).2 =
      [Emission.edited 7 (some (JSNum.num 13))] := by
  refine ⟨?_, by decide, by decide, by decide⟩
  intro mid l lst pm res now
  by_cases hs : shouldEmit (extractPercent res) ⟨JSNum.num l, lst, pm⟩ now
  · rw [onProgressTick_emit _ _ _ _ rfl hs]
    exact iff_of_true (emitStep_ok_env_ne_nil mid _ _ now)
      ((shouldEmit_num_iff (extractPercent res) l lst pm now).mp hs)
  · rw [onProgressTick_skip _ _ _ _ rfl (Bool.eq_false_iff.mpr hs)]
    refine iff_of_false (by simp) fun hr => hs ?_
    exact (shouldEmit_num_iff (extractPercent res) l lst pm now).mpr hr

/-! ## Claim C10 -/

/-- Claim C10: the recorded message handle is written only by the first
successful initial send and never replaced: from a state already
holding a handle `m`, any tick leaves `progressMsg = m` - in particular
a failed edit followed by a fallback send does not record the fallback
message - and every emission from such a state either edits `m` or is
the un-recorded fallback send; from a handle-less state, an emitting
tick emits exactly one new message and records precisely its id. -/
theorem C10_message_handle_invariant :
    (∀ (env : SendEnv) (lp : JSNum) (lst : ℕ) (m : ℕ) (res : StatusPayload) (now : ℕ),
      (onProgressTick env ⟨lp, lst, some m⟩ res now).1.progressMsg = some m) ∧
    (∀ (env : SendEnv) (lp : JSNum) (lst : ℕ) (res : StatusPayload) (now : ℕ),
      (onProgressTick env ⟨lp, lst, none⟩ res now).2 = [] ∨
        ∃ mid, (onProgressTick env ⟨lp, lst, none⟩ res now).2 =
            [Emission.newMsg mid (extractPercent res)] ∧
          (onProgressTick env ⟨lp, lst, none⟩ res now).1.progressMsg = some mid) ∧
    (∀ (env : SendEnv) (lp : JSNum) (lst : ℕ) (m : ℕ) (res : StatusPayload) (now : ℕ),
      (onProgressTick env ⟨lp, lst, some m⟩ res now).2 = [] ∨
        (onProgressTick env ⟨lp, lst, some m⟩ res now).2 =
          [Emission.edited m (extractPercent res)] ∨
        (onProgressTick env ⟨lp, lst, some m⟩ res now).2 =
          [Emission.fallbackMsg (extractPercent res)]) := by
  refine ⟨?_, ?_, ?_⟩
  · intro env lp lst m res now
    by_cases hm : env.malformed
    · simp [onProgressTick, hm]
    · by_cases hs : shouldEmit (extractPercent res) ⟨lp, lst, some m⟩ now
      · rw [onProgressTick_emit _ _ _ _ (Bool.eq_false_iff.mpr hm) hs]
        unfold emitStep
        by_cases he : env.editOk <;> by_cases hf : env.fallbackOk <;>
          simp [he, hf, recordPct_progressMsg]
      · rw [onProgressTick_skip _ _ _ _ (Bool.eq_false_iff.mpr hm) (Bool.eq_false_iff.mpr hs)]
  · intro env lp lst res now
    by_cases hm : env.malformed
    · left
      simp [onProgressTick, hm]
    · by_cases hs : shouldEmit (extractPercent res) ⟨lp, lst, none⟩ now
      · rw [onProgressTick_emit _ _ _ _ (Bool.eq_false_iff.mpr hm) hs]
        unfold emitStep
        cases hr : env.replyResult with
        | error e => left; simp [hr]
        | ok mid => right; exact ⟨mid, by simp [hr], by simp [hr, recordPct_progressMsg]⟩
      · left
        rw [onProgressTick_skip _ _ _ _ (Bool.eq_false_iff.mpr hm) (Bool.eq_false_iff.mpr hs)]
  · intro env lp lst m res now
    by_cases hm : env.malformed
    · left
      simp [onProgressTick, hm]
    · by_cases hs : shouldEmit (extractPercent res) ⟨lp, lst, some m⟩ now
      · rw [onProgressTick_emit _ _ _ _ (Bool.eq_false_iff.mpr hm) hs]
        unfold emitStep
        by_cases he : env.editOk <;> by_cases hf : env.fallbackOk <;> simp [he, hf]
      · left
        rw [onProgressTick_skip _ _ _ _ (Bool.eq_false_iff.mpr hm) (Bool.eq_false_iff.mpr hs)]

/-! ## Claim C6 -/

/-- The `progress[:=]<float>` branch of the extraction on a
single-line log, for a token parsing to a value at most 1. -/
theorem extract_token_le1 (st lg : String) (ds : List Char) (q : ℚ)
    (hscan : pctMatch lg.toList = none)
    (htok : progressTokenMatch lg.toList = some ds)
    (hval : jsParseFloat ds = JSVal.val q) (hq : q ≤ 1) :
    extractPercent ⟨st, none, none, some [lg]⟩ =
      some (JSNum.num (min 100 (max 0 (jsRound (q * 100))))) := by
  have hlast : ((([lg] : List String).getLast?).getD "") = lg := rfl
  simp only [extractPercent, hlast, hscan, htok, hval, JSVal.le1,
    decide_eq_true_eq, hq, if_true, JSVal.roundMul100, JSVal.roundJS, jsRound_intCast,
    JSNum.clamp100]

/-- The same branch for a token parsing to a value above 1. -/
theorem extract_token_gt1 (st lg : String) (ds : List Char) (q : ℚ)
    (hscan : pctMatch lg.toList = none)
    (htok : progressTokenMatch lg.toList = some ds)
    (hval : jsParseFloat ds = JSVal.val q) (hq : ¬ q ≤ 1) :
    extractPercent ⟨st, none, none, some [lg]⟩ =
      some (JSNum.num (min 100 (max 0 (jsRound q)))) := by
  have hlast : ((([lg] : List String).getLast?).getD "") = lg := rfl
  simp only [extractPercent, hlast, hscan, htok, hval, JSVal.le1,
    decide_eq_true_eq, hq, if_false, JSVal.roundJS, JSNum.clamp100]

/-- Claim C6: percent extraction follows the code's priority order with
the claimed values.  A direct numeric `progress` field always wins and
is scaled by 100 (so `{progress: 0.42}` gives 42 even when the logs
claim 99%); a nested `metrics.progress` is used next, same scaling; a
literal `"NN%"` token in the most recent log line is used third,
clamped into `[0, 100]`; a `progress[:=]<float>` token is used last,
values at most 1 scaled by 100 and larger values taken as percentages;
and when nothing matches the percent is unknown. -/
theorem C6_percent_extraction :
    (∀ (st : String) (q : ℚ) (mp : Option ℚ) (lg : Option (List String)),
      extractPercent ⟨st, some q, mp, lg⟩ = some (JSNum.num (jsRound (q * 100)))) ∧
    (∀ (st : String) (q : ℚ) (lg : Option (List String)),
      extractPercent ⟨st, none, some q, lg⟩ = some (JSNum.num (jsRound (q * 100)))) ∧
    extractPercent ⟨"processing", some (42 / 100), none, none⟩ = some (JSNum.num 42) ∧
    extractPercent ⟨"processing", some (1 / 10), none, some ["99%"]⟩ = some (JSNum.num 10) ∧
    extractPercent ⟨"processing", none, some (2 / 10), some ["99%"]⟩ = some (JSNum.num 20) ∧
    extractPercent ⟨"processing", none, none, some ["starting", "done 42%"]⟩ =
      some (JSNum.num 42) ∧
    extractPercent ⟨"processing", none, none, some ["250%"]⟩ = some (JSNum.num 100) ∧
    extractPercent ⟨"processing", none, none, some ["progress: 0.42"]⟩ =
      some (JSNum.num 42) ∧
    extractPercent ⟨"processing", none, none, some ["progress=250"]⟩ =
      some (JSNum.num 100) ∧
    extractPercent ⟨"processing", none, none, some ["hello world"]⟩ = none ∧
    extractPercent ⟨"processing", none, none, none⟩ = none := by
  have hd1 : ∀ (st : String) (q : ℚ) (mp : Option ℚ) (lg : Option (List String)),
      extractPercent ⟨st, some q, mp, lg⟩ = some (JSNum.num (jsRound (q * 100))) :=
    fun st q mp lg => rfl
  have hd2 : ∀ (st : String) (q : ℚ) (lg : Option (List String)),
      extractPercent ⟨st, none, some q, lg⟩ = some (JSNum.num (jsRound (q * 100))) :=
    fun st q lg => rfl
  have hround : jsRound ((42 : ℚ) / 100 * 100) = 42 := by norm_num [jsRound]
  have hround10 : jsRound ((1 : ℚ) / 10 * 100) = 10 := by norm_num [jsRound]
  have hround20 : jsRound ((2 : ℚ) / 10 * 100) = 20 := by norm_num [jsRound]
  have hv042 : jsParseFloat ['0', '.', '4', '2'] = JSVal.val (42 / 100) := by
    have h : jsParseFloat ['0', '.', '4', '2'] =
        JSVal.val ((digitsVal ['0'] : ℚ) +
          (digitsVal ['4', '2'] : ℚ) / 10 ^ (['4', '2'] : List Char).length) := rfl
    rw [h, show digitsVal ['0'] = 0 from by decide, show digitsVal ['4', '2'] = 42 from by decide]
    norm_num
  have hv250 : jsParseFloat ['2', '5', '0'] = JSVal.val 250 := by
    have h : jsParseFloat ['2', '5', '0'] =
        JSVal.val ((digitsVal ['2', '5', '0'] : ℚ) +
          (digitsVal ([] : List Char) : ℚ) / 10 ^ (([] : List Char)).length) := rfl
    rw [h, show digitsVal ['2', '5', '0'] = 250 from by decide,
      show digitsVal ([] : List Char) = 0 from by decide]
    norm_num
  refine ⟨hd1, hd2, ?_, ?_, ?_, by decide, by decide, ?_, ?_, by decide, rfl⟩
  · rw [hd1, hround]
  · rw [hd1, hround10]
  · rw [hd2, hround20]
  · rw [extract_token_le1 "processing" "progress: 0.42" ['0', '.', '4', '2'] (42 / 100)
      (by decide) (by decide) hv042 (by norm_num)]
    rw [hround]
    decide
  · rw [extract_token_gt1 "processing" "progress=250" ['2', '5', '0'] 250
      (by decide) (by decide) hv250 (by norm_num)]
    rw [show jsRound (250 : ℚ) = 250 from by norm_num [jsRound]]
    decide

/-! ## Claim C9 -/

theorem emitBound_step (a T L now : ℕ) (h1 : 15000 ≤ now - L) (h2 : a ≤ now)
    (h3 : now ≤ a + T) : emitBound a T now + 1 ≤ emitBound a T L := by
  unfold emitBound
  split_ifs <;> omega

theorem emitBound_init (a T : ℕ) : emitBound a T 0 ≤ T / 15000 + 1 := by
  unfold emitBound
  split_ifs <;> omega

theorem emitStep_allOk_length (s : NotifierState) (pc : Option JSNum) (now : ℕ) :
    (emitStep envAllOk s pc now).2.length = 1 := by
  unfold emitStep envAllOk
  rcases s with ⟨lp, lst, pm⟩
  cases pm <;> simp

/-- Every notifier run over in-window quiet ticks emits at most
`emitBound a T lastSentTime` updates: each update (and in fact each
time-triggered tick) pushes `lastSentTime` to its `now`, so successive
updates are at least 15000 ms apart inside `[a, a+T]`. -/
theorem runPoll_quiet_bound (toSec a T : ℕ) :
    ∀ (ticks : List RunTick) (s : NotifierState),
      (∀ t ∈ ticks, isQuietTick toSec t = true ∧ a ≤ t.now ∧ t.now ≤ a + T) →
      (runPoll toSec s ticks).emitted.length ≤ emitBound a T s.lastSentTime := by
  intro ticks
  induction ticks with
  | nil =>
    intro s h
    simp only [runPoll]
    exact Nat.zero_le _
  | cons t ts ih =>
    intro s h
    obtain ⟨hq, hal, hau⟩ := h t (by simp)
    have hts : ∀ u ∈ ts, isQuietTick toSec u = true ∧ a ≤ u.now ∧ u.now ≤ a + T :=
      fun u hu => h u (by simp [hu])
    cases hf : t.fetch with
    | error e => rw [isQuietTick, hf] at hq; simp at hq
    | ok res =>
      rw [isQuietTick, hf] at hq
      simp only [Bool.and_eq_true, decide_eq_true_eq] at hq
      obtain ⟨helap, ⟨hsucc, hfail⟩, hx⟩ := hq
      have hlt : ¬ toSec * 1000 < t.elapsedMs := by omega
      rcases tick_cases_unknown t.env s res t.now hx with hcase | ⟨htime, hlast, hlen⟩
      · simp only [runPoll, hlt, if_false, hf, hsucc, hfail, hcase, if_neg,
          List.nil_append, ite_false]
        simpa [hcase] using ih s hts
      · have hrec := ih (onProgressTick t.env s res t.now).1 hts
        rw [hlast] at hrec
        have hstep := emitBound_step a T s.lastSentTime t.now htime hal hau
        simp only [runPoll, hlt, if_false, hf, hsucc, hfail, ite_false, List.length_append]
        omega

theorem canonicalTicks_succ (a n : ℕ) :
    canonicalTicks a (n + 1) = canonicalTicks a n ++ [canonicalTick a n] := by
  simp [canonicalTicks, List.range_succ]

/-- Splitting a polling run whose first part did not terminate. -/
theorem runPoll_append (toSec : ℕ) (s : NotifierState) (xs ys : List RunTick)
    (h : (runPoll toSec s xs).result = none) :
    runPoll toSec s (xs ++ ys) =
      ⟨(runPoll toSec (runPoll toSec s xs).state ys).state,
       (runPoll toSec s xs).emitted ++ (runPoll toSec (runPoll toSec s xs).state ys).emitted,
       (runPoll toSec (runPoll toSec s xs).state ys).result⟩ := by
  induction xs generalizing s with
  | nil =>
    rcases hys : runPoll toSec s ys with ⟨st, em, re⟩
    simp [runPoll, hys]
  | cons x xs ih =>
    by_cases hlt : toSec * 1000 < x.elapsedMs
    · simp [runPoll, hlt] at h
    · cases hf : x.fetch with
      | error e => simp [runPoll, hlt, hf] at h
      | ok res =>
        by_cases h1 : res.status = "succeeded"
        · simp [runPoll, hlt, hf, h1] at h
        · by_cases h2 : res.status = "failed"
          · simp [runPoll, hlt, hf, h1, h2] at h
          · have h' : (runPoll toSec (onProgressTick x.env s res x.now).1 xs).result = none := by
              simpa [runPoll, hlt, hf, h1, h2] using h
            simp [runPoll, hlt, hf, h1, h2, ih _ h', List.append_assoc]

theorem extract_running : extractPercent runningPayload = none := rfl

/-- Evaluating the poll loop on a single in-deadline running tick. -/
theorem runPoll_single_running (toSec : ℕ) (s : NotifierState) (t : RunTick)
    (res : StatusPayload) (hlt : ¬ toSec * 1000 < t.elapsedMs)
    (hf : t.fetch = Except.ok res)
    (h1 : res.status ≠ "succeeded") (h2 : res.status ≠ "failed") :
    runPoll toSec s [t] =
      ⟨(onProgressTick t.env s res t.now).1, (onProgressTick t.env s res t.now).2, none⟩ := by
  simp [runPoll, hlt, hf, h1, h2]

/-- The canonical cadence: after `n ≥ 1` iterations the run is still
going, `lastSentTime` sits at the time of the last emission, and
exactly `(n-1)/5 + 1` updates have been emitted (one per five
3-second ticks - that is, one per 15000 ms - plus the initial one). -/
theorem canonical_invariant (a : ℕ) (ha : 15000 ≤ a) :
    ∀ n, 1 ≤ n → REPLICATE_POLL_INTERVAL_MS * n ≤ 600 * 1000 →
      (runPoll 600 NotifierState.init (canonicalTicks a n)).result = none ∧
      (runPoll 600 NotifierState.init (canonicalTicks a n)).state.lastSentTime =
        a + 15000 * ((n - 1) / 5) ∧
      (runPoll 600 NotifierState.init (canonicalTicks a n)).emitted.length = (n - 1) / 5 + 1 := by
  intro n
  induction n with
  | zero => intro h1 _; exact absurd h1 (by omega)
  | succ n ih =>
    intro _ hlim
    have henv : (canonicalTick a n).env = envAllOk := rfl
    have hfetch : (canonicalTick a n).fetch = Except.ok runningPayload := rfl
    have hnow : (canonicalTick a n).now = a + 3000 * n := by
      simp [canonicalTick, REPLICATE_POLL_INTERVAL_MS]
    have hlt : ¬ 600 * 1000 < (canonicalTick a n).elapsedMs := by
      have he : (canonicalTick a n).elapsedMs = 3000 * n := by
        simp [canonicalTick, REPLICATE_POLL_INTERVAL_MS]
      rw [he]
      unfold REPLICATE_POLL_INTERVAL_MS at hlim
      omega
    rcases Nat.eq_zero_or_pos n with rfl | hn
    · have h0 : canonicalTicks a (0 + 1) = [canonicalTick a 0] := rfl
      rw [h0, runPoll_single_running 600 NotifierState.init (canonicalTick a 0) runningPayload
        hlt hfetch (by decide) (by decide), henv, hnow]
      have hse : shouldEmit (extractPercent runningPayload) NotifierState.init
          (a + 3000 * 0) = true := by
        simp only [shouldEmit, extract_running, knownDeltaOk, MIN_INTERVAL_MS,
          NotifierState.init, Bool.false_or, decide_eq_true_eq]
        omega
      rw [onProgressTick_emit _ _ _ _ rfl hse]
      refine ⟨rfl, ?_, ?_⟩
      · show (emitStep envAllOk NotifierState.init (extractPercent runningPayload)
            (a + 3000 * 0)).1.lastSentTime = a + 15000 * ((0 + 1 - 1) / 5)
        have h := emitStep_lastSentTime envAllOk NotifierState.init
          (extractPercent runningPayload) (a + 3000 * 0)
        omega
      · show (emitStep envAllOk NotifierState.init (extractPercent runningPayload)
            (a + 3000 * 0)).2.length = (0 + 1 - 1) / 5 + 1
        have h := emitStep_allOk_length NotifierState.init (extractPercent runningPayload)
          (a + 3000 * 0)
        omega
    · obtain ⟨hres, hlast, hlen⟩ := ih hn (by unfold REPLICATE_POLL_INTERVAL_MS at hlim ⊢; omega)
      rw [canonicalTicks_succ, runPoll_append 600 _ _ _ hres,
        runPoll_single_running 600 _ (canonicalTick a n) runningPayload
          hlt hfetch (by decide) (by decide), henv, hnow]
      set sN := (runPoll 600 NotifierState.init (canonicalTicks a n)).state with hsN
      by_cases hdvd : n % 5 = 0
      · have hse : shouldEmit (extractPercent runningPayload) sN (a + 3000 * n) = true := by
          simp only [shouldEmit, extract_running, knownDeltaOk, MIN_INTERVAL_MS,
            Bool.false_or, decide_eq_true_eq, hlast]
          omega
        rw [onProgressTick_emit _ _ _ _ rfl hse]
        refine ⟨rfl, ?_, ?_⟩
        · show (emitStep envAllOk sN (extractPercent runningPayload)
              (a + 3000 * n)).1.lastSentTime = a + 15000 * ((n + 1 - 1) / 5)
          have h := emitStep_lastSentTime envAllOk sN (extractPercent runningPayload)
            (a + 3000 * n)
          omega
        · show ((runPoll 600 NotifierState.init (canonicalTicks a n)).emitted ++
              (emitStep envAllOk sN (extractPercent runningPayload) (a + 3000 * n)).2).length =
            (n + 1 - 1) / 5 + 1
          rw [List.length_append, hlen]
          have h := emitStep_allOk_length sN (extractPercent runningPayload) (a + 3000 * n)
          omega
      · have hse : shouldEmit (extractPercent runningPayload) sN (a + 3000 * n) = false := by
          simp only [shouldEmit, extract_running, knownDeltaOk, MIN_INTERVAL_MS,
            Bool.false_or, decide_eq_false_iff_not, hlast]
          omega
        rw [onProgressTick_skip _ _ _ _ rfl hse]
        refine ⟨rfl, ?_, ?_⟩
        · show sN.lastSentTime = a + 15000 * ((n + 1 - 1) / 5)
          rw [hlast]
          omega
        · show ((runPoll 600 NotifierState.init (canonicalTicks a n)).emitted ++
              ([] : List Emission)).length = (n + 1 - 1) / 5 + 1
          rw [List.append_nil, hlen]
          omega

/-- Claim C9: over any polling run of quiet ticks (running status, no
readable percent) whose callback times lie in a window of length `T`
milliseconds, the number of emitted notifications never exceeds
`⌈T / 15000⌉ + 1`; and a run following the code's own 3-second cadence
with a working transport emits `⌊T / 15000⌋ + 1` notifications, which
lies within 1 of `⌈T / 15000⌉` (here `T = 3000·(n-1)` is the time
spanned by `n` ticks and `(T + 14999) / 15000 = ⌈T / 15000⌉`). -/
theorem C9_notification_count :
    (∀ (toSec a T : ℕ) (ticks : List RunTick),
      (∀ t ∈ ticks, isQuietTick toSec t = true ∧ a ≤ t.now ∧ t.now ≤ a + T) →
      (runPoll toSec NotifierState.init ticks).emitted.length ≤ (T + 14999) / 15000 + 1) ∧
    (∀ (a n : ℕ), 1 ≤ n → 15000 ≤ a → REPLICATE_POLL_INTERVAL_MS * n ≤ 600 * 1000 →
      (3000 * (n - 1) + 14999) / 15000 ≤
          (runPoll 600 NotifierState.init (canonicalTicks a n)).emitted.length ∧
        (runPoll 600 NotifierState.init (canonicalTicks a n)).emitted.length ≤
          (3000 * (n - 1) + 14999) / 15000 + 1) := by
  constructor
  · intro toSec a T ticks h
    have hb := runPoll_quiet_bound toSec a T ticks NotifierState.init h
    have hinit : (NotifierState.init).lastSentTime = 0 := rfl
    rw [hinit] at hb
    have := emitBound_init a T
    omega
  · intro a n hn ha hlim
    obtain ⟨_, _, hlen⟩ := canonical_invariant a ha n hn hlim
    rw [hlen]
    omega

/-- Witness for C9: both parts applied to concrete runs - a single
quiet tick in a zero-length window emits at most one notification, and
the one-tick canonical run emits exactly within the claimed bounds. -/
theorem C9_witness :
    (runPoll 600 NotifierState.init
        [⟨0, 20000, Except.ok runningPayload, envAllOk⟩]).emitted.length ≤
      (0 + 14999) / 15000 + 1 ∧
    (3000 * (1 - 1) + 14999) / 15000 ≤
        (runPoll 600 NotifierState.init (canonicalTicks 15000 1)).emitted.length ∧
      (runPoll 600 NotifierState.init (canonicalTicks 15000 1)).emitted.length ≤
        (3000 * (1 - 1) + 14999) / 15000 + 1 := by
  constructor
  · refine C9_notification_count.1 600 20000 0
      [⟨0, 20000, Except.ok runningPayload, envAllOk⟩] ?_
    intro t ht
    simp only [List.mem_singleton] at ht
    subst ht
    exact ⟨by decide, by decide, by decide⟩
  · exact C9_notification_count.2 15000 1 (by decide) (by decide) (by decide)

end Eyobbot
